import Mathlib

/-!
# Verification of the football match analyzer (`streamlit_app_cloud.py`)

A shallow embedding of the core logic of `SimplifiedAnalyzer`:
team extraction (`extract_basic_info`), league detection (`detect_league`),
prediction generation (`generate_mock_analysis`) and the result-grading
section of `analyze_match`.  Python floats are modelled by `ℚ`, Python
strings by `String`, the parsed HTML document by an explicit record of the
features the code reads, and the random draws of `random.uniform` by
explicit parameters.  Fallible parsing returns `Option`.
-/

/-! ## Python string primitives

Helpers modelling the Python string operations used by the source
(`.lower()`, `.upper()`, `in`, `.strip()`, `.split()`, `.split(sep)`,
`.replace('-', ' ')`, `.title()`, `' '.join`, `int(...)`).  Case mapping is
ASCII, which is all the source's patterns and tokens need. -/

/-- Python `s.lower()` (ASCII case mapping, per character). -/
def lowerStr (s : String) : String := ⟨s.data.map Char.toLower⟩

/-- Python `s.upper()` (ASCII case mapping, per character). -/
def upperStr (s : String) : String := ⟨s.data.map Char.toUpper⟩

/-- `needle` occurs as a contiguous sublist of `hay`. -/
def infixOfList (needle : List Char) : List Char → Bool
  | [] => needle.isPrefixOf []
  | c :: cs => needle.isPrefixOf (c :: cs) || infixOfList needle cs

/-- Python `sub in s` for strings: substring containment. -/
def strContains (s sub : String) : Bool := infixOfList sub.data s.data

/-- Python `s.strip()`: drop leading and trailing whitespace. -/
def pyStrip (s : String) : String :=
  ⟨((s.data.dropWhile Char.isWhitespace).reverse.dropWhile Char.isWhitespace).reverse⟩

/-- Helper for `pySplit`: accumulate maximal runs of non-whitespace. -/
def pyTokensAux : List Char → List Char → List (List Char)
  | [], acc => if acc = [] then [] else [acc.reverse]
  | c :: cs, acc =>
    if c.isWhitespace then
      if acc = [] then pyTokensAux cs [] else acc.reverse :: pyTokensAux cs []
    else
      pyTokensAux cs (c :: acc)

/-- Python `s.split()` with no argument: split on runs of whitespace,
discarding empty tokens. -/
def pySplit (s : String) : List String := (pyTokensAux s.data []).map (fun l => ⟨l⟩)

/-- Helper for `pySplitStr`: split a character list at every occurrence of
the (nonempty, as in every call of the source) separator.  The `Nat` is
fuel, at least the length of the list at every call, so the middle case is
never reached; it keeps the recursion structural. -/
def splitOnAux (sep : List Char) : Nat → List Char → List Char → List (List Char)
  | _, [], acc => [acc.reverse]
  | 0, l, acc => [acc.reverse ++ l]
  | fuel + 1, c :: cs, acc =>
    if sep.isPrefixOf (c :: cs) then
      acc.reverse :: splitOnAux sep fuel (cs.drop (sep.length - 1)) []
    else
      splitOnAux sep fuel cs (c :: acc)

/-- Python `s.split(sep)` for a nonempty separator string. -/
def pySplitStr (s sep : String) : List String :=
  (splitOnAux sep.data s.data.length s.data []).map (fun l => ⟨l⟩)

/-- Python `s.replace('-', ' ')` (single-character replacement). -/
def pyReplaceDash (s : String) : String :=
  ⟨s.data.map (fun c => if c = '-' then ' ' else c)⟩

/-- Helper for `pyTitle`: the Boolean records whether the previous
character was alphabetic. -/
def pyTitleAux : Bool → List Char → List Char
  | _, [] => []
  | prevAlpha, c :: cs =>
    (if c.isAlpha then (if prevAlpha then c.toLower else c.toUpper) else c) ::
      pyTitleAux c.isAlpha cs

/-- Python `s.title()`: uppercase each letter that follows a non-letter,
lowercase every other letter (ASCII). -/
def pyTitle (s : String) : String := ⟨pyTitleAux false s.data⟩

/-- Python `' '.join(l)`. -/
def joinSpace : List String → String
  | [] => ""
  | [s] => s
  | s :: rest => s ++ " " ++ joinSpace rest

/-- Decimal digit list to a natural number. -/
def digitsVal (ds : List Char) : Nat :=
  ds.foldl (fun acc c => acc * 10 + (c.toNat - 48)) 0

/-- Unsigned part of Python `int(s)`: all-digit nonempty strings only. -/
def pyIntCore (ds : List Char) : Option Nat :=
  if ds ≠ [] ∧ ds.all Char.isDigit then some (digitsVal ds) else none

/-- Python `int(s)` on the tokens the grader can meet (an optional sign
followed by decimal digits; a failure — Python's `ValueError` — is `none`). -/
def pyInt (s : String) : Option Int :=
  match s.data with
  | '-' :: rest => (pyIntCore rest).map (fun n => -(n : Int))
  | '+' :: rest => (pyIntCore rest).map (fun n => (n : Int))
  | ds => (pyIntCore ds).map (fun n => (n : Int))

/-! ## Data model -/

/-- One entry of `self.league_adjustments` (source lines 39-48):
`draw_rate`, `goals`, `home_adv`. -/
structure LeagueAdj where
  draw_rate : ℚ
  goals : ℚ
  home_adv : ℚ
deriving DecidableEq

/-- The `league_adjustments` table of `SimplifiedAnalyzer.__init__`
(source lines 39-48), as a partial lookup keyed by league name. -/
def league_adjustments (league : String) : Option LeagueAdj :=
  if league = "Premier League" then some ⟨0.28, 2.8, 1.15⟩
  else if league = "Champions League" then some ⟨0.30, 2.6, 1.02⟩
  else if league = "Europa League" then some ⟨0.70, 2.2, 1.01⟩
  else if league = "Conference League" then some ⟨0.45, 1.5, 1.08⟩
  else if league = "La Liga" then some ⟨0.25, 2.7, 1.12⟩
  else if league = "Bundesliga" then some ⟨0.24, 3.1, 1.08⟩
  else if league = "Serie A" then some ⟨0.27, 2.5, 1.10⟩
  else if league = "Ligue 1" then some ⟨0.26, 2.6, 1.09⟩
  else none

/-- `self.league_adjustments.get(league, {'draw_rate': 0.33, 'goals': 2.5,
'home_adv': 1.10})` (source lines 135-137): the profile with the default
used for an unrecognized league. -/
def leagueProfile (league : String) : LeagueAdj :=
  (league_adjustments league).getD ⟨0.33, 2.5, 1.10⟩

/-- The dictionary returned by `generate_mock_analysis`
(source lines 200-214). -/
structure Analysis where
  home_team : String
  away_team : String
  league : String
  home_prob : ℚ
  away_prob : ℚ
  draw_prob : ℚ
  home_goals : ℚ
  away_goals : ℚ
  total_goals : ℚ
  over_25 : ℚ
  bts : ℚ
  recommendation : String
  confidence : String
deriving DecidableEq

/-- `generate_mock_analysis` (source lines 131-214).  The five `ℚ`
parameters stand for the five `random.uniform` draws, in source order:
`rH ∈ [-8, 8]`, `rA ∈ [-8, 8]`, `rD ∈ [-5, 15]`, `rHG ∈ [-0.3, 0.3]`,
`rAG ∈ [-0.3, 0.3]`. -/
def generate_mock_analysis (home_team away_team league : String)
    (rH rA rD rHG rAG : ℚ) : Analysis :=
  let league_data := (league_adjustments league).getD ⟨0.33, 2.5, 1.10⟩
  let base_home : ℚ :=
    if league = "Europa League" then 25.0
    else if league = "Conference League" then 35.0
    else if league = "Premier League" then 42.0
    else if league = "Champions League" then 40.0
    else 45.0
  let base_away : ℚ :=
    if league = "Europa League" then 15.0
    else if league = "Conference League" then 20.0
    else if league = "Premier League" then 30.0
    else if league = "Champions League" then 30.0
    else 35.0
  let base_draw : ℚ :=
    if league = "Europa League" then 60.0
    else if league = "Conference League" then 45.0
    else if league = "Premier League" then 28.0
    else if league = "Champions League" then 30.0
    else 20.0
  let home_prob := max 15.0 (min 70.0 (base_home + rH))
  let away_prob := max 15.0 (min 70.0 (base_away + rA))
  let draw_prob := max 10.0 (min 80.0 (base_draw + rD))
  let total := home_prob + away_prob + draw_prob
  let home_prob := home_prob / total * 100
  let away_prob := away_prob / total * 100
  let draw_prob := draw_prob / total * 100
  let expected_goals := league_data.goals
  let home_goals := max 0.5 (expected_goals * 0.55 + rHG)
  let away_goals := max 0.5 (expected_goals * 0.45 + rAG)
  let total_goals := home_goals + away_goals
  let over_25 := min 90 (max 10 ((total_goals - 2.5) * 30 + 50))
  let bts := min 85 (max 15 (min home_goals away_goals * 40 + 30))
  let recommendation :=
    if draw_prob > 45 ∧ (league = "Europa League" ∨ league = "Conference League") then
      "🤝 DRAW"
    else if home_prob > away_prob + 8 then
      "🏠 " ++ home_team ++ " WIN"
    else if away_prob > home_prob + 8 then
      "🛣️ " ++ away_team ++ " WIN"
    else
      "🤝 DRAW"
  let confidence :=
    if draw_prob > 45 ∧ (league = "Europa League" ∨ league = "Conference League") then
      if draw_prob > 50 then "MEDIUM" else "LOW"
    else if home_prob > away_prob + 8 then
      if home_prob > 50 then "HIGH" else "MEDIUM"
    else if away_prob > home_prob + 8 then
      if away_prob > 50 then "HIGH" else "MEDIUM"
    else
      "LOW"
  ⟨home_team, away_team, league, home_prob, away_prob, draw_prob,
   home_goals, away_goals, total_goals, over_25, bts, recommendation, confidence⟩

/-! ## Parsed document model -/

/-- An element of the parsed page, with the features
`soup.find_all(['h1', 'h2', 'span'], class_=...)` inspects: tag name,
optional `class` attribute value, text. -/
structure Elem where
  tag : String
  className : Option String
  text : String
deriving DecidableEq

/-- The features of the parsed page that `extract_basic_info` and
`detect_league` read: the element list in document order, the text of the
`<title>` element when present, the `href` of the `rel="canonical"` link
when present (`.get('href', '')` makes an attribute-less link `some ""`),
and `soup.get_text()`. -/
structure Doc where
  elements : List Elem
  title : Option String
  canonical : Option String
  textContent : String
deriving DecidableEq

/-- The element filter of source line 66:
`soup.find_all(['h1', 'h2', 'span'], class_=re.compile(r'team|match|title', re.I))`
— tag among `h1`/`h2`/`span` and a class attribute containing `team`,
`match` or `title` case-insensitively. -/
def isTeamElem (e : Elem) : Bool :=
  (e.tag == "h1" || e.tag == "h2" || e.tag == "span") &&
    (match e.className with
     | some cls =>
       strContains (lowerStr cls) "team" || strContains (lowerStr cls) "match" ||
         strContains (lowerStr cls) "title"
     | none => false)

/-- `extract_basic_info` (source lines 62-91).  The title fallback is
guarded by `if not team_elements:`; when it does not return, control falls
through to the canonical-link fallback and finally to the
`("Team A", "Team B")` default.  The surrounding `try/except` cannot fire
in this total model; its handler returns the same default. -/
def extract_basic_info (doc : Doc) : String × String :=
  let team_elements := doc.elements.filter isTeamElem
  let fromTitle : Option (String × String) :=
    if team_elements = [] then
      match doc.title with
      | some title =>
        if strContains title "vs" then
          let teams := pySplitStr title "vs"
          if teams.length ≥ 2 then
            some (pyStrip (teams.getD 0 ""), pyStrip (teams.getD 1 ""))
          else none
        else none
      | none => none
    else none
  match fromTitle with
  | some r => r
  | none =>
    match doc.canonical with
    | some url =>
      if strContains url "matches" then
        let match_part := (pySplitStr url "matches/").getLastD ""
        let teams := pySplitStr match_part "-"
        if teams.length ≥ 2 then
          (pyTitle (pyReplaceDash (joinSpace teams.dropLast)),
           pyTitle (pyReplaceDash ((pySplitStr (teams.getLastD "") "-").headD "")))
        else ("Team A", "Team B")
      else ("Team A", "Team B")
    | none => ("Team A", "Team B")

/-- `detect_league` (source lines 93-129).  `textContent` is
`soup.get_text()`; the `try/except` around the text stage cannot fire in
this total model and its handler falls through to the default. -/
def detect_league (url : String) (textContent : String) : String :=
  let url_lower := lowerStr url
  if strContains url_lower "premier-league" || strContains url_lower "epl" then
    "Premier League"
  else if strContains url_lower "champions-league" || strContains url_lower "ucl" then
    "Champions League"
  else if strContains url_lower "europa-league" && !strContains url_lower "conference" then
    "Europa League"
  else if strContains url_lower "conference-league" then
    "Conference League"
  else if strContains url_lower "la-liga" || strContains url_lower "spain" then
    "La Liga"
  else if strContains url_lower "bundesliga" || strContains url_lower "germany" then
    "Bundesliga"
  else if strContains url_lower "serie-a" || strContains url_lower "italy" then
    "Serie A"
  else if strContains url_lower "ligue-1" || strContains url_lower "france" then
    "Ligue 1"
  else
    let text_content := lowerStr textContent
    if strContains text_content "premier league" then "Premier League"
    else if strContains text_content "champions league" then "Champions League"
    else if strContains text_content "europa league" && !strContains text_content "conference" then
      "Europa League"
    else if strContains text_content "conference league" then "Conference League"
    else "Unknown League"

/-! ## Result grading -/

/-- The grading facts computed by the result section of `analyze_match`
(source lines 229-260): `correct`, and `over_correct`/`bts_correct` when a
score parsed (`none` models the fields the code leaves uncomputed). -/
structure GradingOutcome where
  outcomeCorrect : Bool
  overUnderCorrect : Option Bool
  bothTeamsScoreCorrect : Option Bool
deriving DecidableEq

/-- The result-grading section of `analyze_match` (source lines 229-260).
`none` is the case `if actual_result:` being falsy or `parts` empty, where
the code computes nothing.  The `try/except: pass` around
`map(int, score.split('-'))` is the `| _ => ...` cases: any parse failure
leaves the two score-dependent fields uncomputed. -/
def gradeResult (analysis : Analysis) (actual_result : String) : Option GradingOutcome :=
  if actual_result = "" then none
  else
    match pySplit (pyStrip actual_result) with
    | [] => none
    | p0 :: prest =>
      let result_type := upperStr p0
      let score : Option String := prest.head?
      let predicted := analysis.recommendation
      let correct : Bool :=
        if result_type == "H" && strContains (upperStr predicted) "HOME" then true
        else if result_type == "A" && strContains (upperStr predicted) "AWAY" then true
        else if result_type == "D" && strContains (upperStr predicted) "DRAW" then true
        else false
      match score with
      | none => some ⟨correct, none, none⟩
      | some sc =>
        if strContains sc "-" then
          match pySplitStr sc "-" with
          | [a, b] =>
            match pyInt a, pyInt b with
            | some home_goals, some away_goals =>
              let total := home_goals + away_goals
              let over_correct : Bool :=
                decide ((total : ℚ) > 2.5) == decide (analysis.over_25 > 50)
              let bts_correct : Bool :=
                decide (home_goals > 0 ∧ away_goals > 0) == decide (analysis.bts > 50)
              some ⟨correct, some over_correct, some bts_correct⟩
            | _, _ => some ⟨correct, none, none⟩
          | _ => some ⟨correct, none, none⟩
        else some ⟨correct, none, none⟩

/-! ## Spec-side definitions (stated from the specification's words, to be
compared with the source embedding) -/

/-- Spec-side `clamp(lo, hi, x)` as the specification writes it. -/
def clamp (lo hi x : ℚ) : ℚ := max lo (min hi x)

/-- Spec-side outcome matching of the grader: the first token decides via a
case-insensitive substring test against the recommendation label. -/
def outcomeMatches (predicted tok : String) : Bool :=
  let result_type := upperStr tok
  if result_type == "H" && strContains (upperStr predicted) "HOME" then true
  else if result_type == "A" && strContains (upperStr predicted) "AWAY" then true
  else if result_type == "D" && strContains (upperStr predicted) "DRAW" then true
  else false

/-- Spec-side score parsing of the grader: the second whitespace token, when
present, containing `-` and splitting into exactly two Python-`int`-parseable
parts; every other shape is an omitted score. -/
def scoreParsed (rest : List String) : Option (Int × Int) :=
  match rest.head? with
  | none => none
  | some sc =>
    if strContains sc "-" then
      match pySplitStr sc "-" with
      | [a, b] =>
        match pyInt a, pyInt b with
        | some x, some y => some (x, y)
        | _, _ => none
      | _ => none
    else none

/-- Spec-side canonical-link stage of the team-extraction cascade (spec
§4.2 stages 3-4), as the code implements it, followed by the ultimate
default. -/
def canonicalFallback (doc : Doc) : String × String :=
  match doc.canonical with
  | some url =>
    if strContains url "matches" then
      let match_part := (pySplitStr url "matches/").getLastD ""
      let teams := pySplitStr match_part "-"
      if teams.length ≥ 2 then
        (pyTitle (pyReplaceDash (joinSpace teams.dropLast)),
         pyTitle (pyReplaceDash ((pySplitStr (teams.getLastD "") "-").headD "")))
      else ("Team A", "Team B")
    else ("Team A", "Team B")
  | none => ("Team A", "Team B")

/-! ## Concrete documents used as inputs -/

/-- The spec's end-to-end example URL: contains `europa-league`, not
`conference`, and a `matches/arsenal-chelsea-123456` tail. -/
def exUrl : String := "https://www.forebet.com/en/europa-league/matches/arsenal-chelsea-123456"

/-- The spec's end-to-end example page: no matching team elements, no
`vs` title, canonical link `exUrl`. -/
def exDoc : Doc := ⟨[], none, some exUrl, ""⟩

/-- A page whose headings match the team class filter with usable texts. -/
def docHeadings : Doc :=
  ⟨[⟨"h1", some "team", "Arsenal"⟩, ⟨"h2", some "team-name", "Chelsea"⟩], none, none, ""⟩

/-- A page with no matching heading, a title without `vs`, and a canonical
link whose href contains `matches` but no `matches/` segment. -/
def docStats : Doc :=
  ⟨[], some "Match Centre", some "https://example.com/stats-matches-today", ""⟩

/-- A page with no matching heading, a `vs`-free title, and a canonical
link whose href does not contain `matches`. -/
def docNoVs : Doc :=
  ⟨[], some "Arsenal - Chelsea preview", some "https://www.forebet.com/en/predictions", ""⟩

/-! ## Shared lemmas -/

/-- Normalizing three values each bounded below by part of a positive total
yields percentages summing to exactly 100. -/
theorem norm_sum_eq (x y z : ℚ) (hx : 15.0 ≤ x) (hy : 15.0 ≤ y) (hz : 10.0 ≤ z) :
    x / (x + y + z) * 100 + y / (x + y + z) * 100 + z / (x + y + z) * 100 = 100 := by
  have h0 : x + y + z ≠ 0 := by
    have h1 : (0 : ℚ) < x + y + z := by
      have e15 : (15.0 : ℚ) = 15 := by norm_num
      have e10 : (10.0 : ℚ) = 10 := by norm_num
      rw [e15] at hx hy
      rw [e10] at hz
      linarith
    exact h1.ne'
  field_simp
  ring

/-- For `lo ≤ hi` the spec's `clamp` agrees with the source's
`min hi (max lo x)` form. -/
theorem clamp_eq_min_max (lo hi x : ℚ) (h : lo ≤ hi) : clamp lo hi x = min hi (max lo x) := by
  rw [clamp, max_min_distrib_left, max_eq_right h]

/-- Both expected-goal values at least one half force the raw
both-teams-score percentage to at least 50 before and after clamping. -/
theorem bts_lower_bound (hg ag : ℚ) (h1 : 0.5 ≤ hg) (h2 : 0.5 ≤ ag) :
    (50 : ℚ) ≤ min 85 (max 15 (min hg ag * 40 + 30)) := by
  have hm : (0.5 : ℚ) ≤ min hg ag := le_min h1 h2
  have e : (0.5 : ℚ) = 1 / 2 := by norm_num
  rw [e] at hm
  have hr : (50 : ℚ) ≤ min hg ag * 40 + 30 := by linarith
  exact le_min (by norm_num) (le_trans hr (le_max_right _ _))

set_option maxHeartbeats 2000000 in
/-- Evaluation of the generator at home/away Arsenal/Chelsea, an
unrecognized league and all noise zero.  (Rational arithmetic is carried
out by `norm_num`; the string conditions are settled by `decide`.) -/
theorem gen_arsenal_eval :
    generate_mock_analysis "Arsenal" "Chelsea" "Unknown League" 0 0 0 0 0 =
      ⟨"Arsenal", "Chelsea", "Unknown League", 45, 35, 20, 1.375, 1.125, 2.5, 50, 75,
        "🏠 Arsenal WIN", "MEDIUM"⟩ := by
  have hla : league_adjustments "Unknown League" = none := by decide
  have e1 : ("Unknown League" = "Europa League") = False := eq_false (by decide)
  have e2 : ("Unknown League" = "Conference League") = False := eq_false (by decide)
  have e3 : ("Unknown League" = "Premier League") = False := eq_false (by decide)
  have e4 : ("Unknown League" = "Champions League") = False := eq_false (by decide)
  have s1 : ("🏠 " ++ "Arsenal" ++ " WIN" : String) = "🏠 Arsenal WIN" := by decide
  norm_num [generate_mock_analysis, hla, e1, e2, e3, e4, s1, min_def, max_def,
    Analysis.mk.injEq]

set_option maxHeartbeats 2000000 in
/-- Evaluation of the generator at the teams the canonical-link fallback
extracts from the end-to-end example, Europa League, all noise zero. -/
theorem gen_arsenal_chelsea_eval :
    generate_mock_analysis "Arsenal Chelsea" "123456" "Europa League" 0 0 0 0 0 =
      ⟨"Arsenal Chelsea", "123456", "Europa League", 25, 15, 60, 1.21, 0.99, 2.2, 41, 69.6,
        "🤝 DRAW", "MEDIUM"⟩ := by
  have f1 : ("Europa League" = "Premier League") = False := eq_false (by decide)
  have f2 : ("Europa League" = "Champions League") = False := eq_false (by decide)
  have f3 : ("Europa League" = "Conference League") = False := eq_false (by decide)
  have hla : league_adjustments "Europa League" = some ⟨0.70, 2.2, 1.01⟩ := by
    simp [league_adjustments, f1, f2]
  norm_num [generate_mock_analysis, hla, f1, f2, f3, min_def, max_def, Analysis.mk.injEq]

/-! ## C10 -/

/-- Claim C10: for every input and every outcome of the random draws, the
generated `bts` percentage is at least 50, because each expected-goal value
is floored at 0.5, so the documented lower clamp of 15 never binds. -/
theorem bts_at_least_50 (home away league : String) (rH rA rD rHG rAG : ℚ) :
    (50 : ℚ) ≤ (generate_mock_analysis home away league rH rA rD rHG rAG).bts := by
  dsimp only [generate_mock_analysis]
  exact bts_lower_bound _ _ (le_max_left _ _) (le_max_left _ _)

/-! ## C5 -/

/-- Claim C5: for every team pair and league string and every outcome of
the random draws in their ranges, the three returned probabilities sum to
exactly 100 (exact in this rational model of the float arithmetic). -/
theorem probabilities_sum_100 (home away league : String) (rH rA rD rHG rAG : ℚ)
    (hH : -8 ≤ rH ∧ rH ≤ 8) (hA : -8 ≤ rA ∧ rA ≤ 8) (hD : -5 ≤ rD ∧ rD ≤ 15) :
    (generate_mock_analysis home away league rH rA rD rHG rAG).home_prob +
      (generate_mock_analysis home away league rH rA rD rHG rAG).away_prob +
      (generate_mock_analysis home away league rH rA rD rHG rAG).draw_prob = 100 := by
  dsimp only [generate_mock_analysis]
  exact norm_sum_eq _ _ _ (le_max_left _ _) (le_max_left _ _) (le_max_left _ _)

/-- Witness for C5 at a concrete input. -/
theorem probabilities_sum_100_witness :
    (generate_mock_analysis "A" "B" "Premier League" 0 0 0 0 0).home_prob +
      (generate_mock_analysis "A" "B" "Premier League" 0 0 0 0 0).away_prob +
      (generate_mock_analysis "A" "B" "Premier League" 0 0 0 0 0).draw_prob = 100 :=
  probabilities_sum_100 "A" "B" "Premier League" 0 0 0 0 0
    (by norm_num) (by norm_num) (by norm_num)

/-! ## C6 -/

/-- Claim C6: the goal-market derivation — expected goals from the league
profile (default `⟨0.33, 2.5, 1.10⟩` for an unrecognized league, no
exception possible), home/away shares 0.55/0.45 with post-noise floor 0.5,
`over_25 = clamp 10 90 ((total − 2.5)·30 + 50)`,
`bts = clamp 15 85 (min(hg, ag)·40 + 30)`, and both goal values ≥ 0.5. -/
theorem goal_market_derivation (home away league : String) (rH rA rD rHG rAG : ℚ) :
    (generate_mock_analysis home away league rH rA rD rHG rAG).home_goals
        = max 0.5 ((leagueProfile league).goals * 0.55 + rHG) ∧
    (generate_mock_analysis home away league rH rA rD rHG rAG).away_goals
        = max 0.5 ((leagueProfile league).goals * 0.45 + rAG) ∧
    (generate_mock_analysis home away league rH rA rD rHG rAG).total_goals
        = (generate_mock_analysis home away league rH rA rD rHG rAG).home_goals
          + (generate_mock_analysis home away league rH rA rD rHG rAG).away_goals ∧
    (generate_mock_analysis home away league rH rA rD rHG rAG).over_25
        = clamp 10 90
            (((generate_mock_analysis home away league rH rA rD rHG rAG).total_goals - 2.5)
              * 30 + 50) ∧
    (generate_mock_analysis home away league rH rA rD rHG rAG).bts
        = clamp 15 85
            (min (generate_mock_analysis home away league rH rA rD rHG rAG).home_goals
              (generate_mock_analysis home away league rH rA rD rHG rAG).away_goals * 40 + 30) ∧
    (0.5 : ℚ) ≤ (generate_mock_analysis home away league rH rA rD rHG rAG).home_goals ∧
    (0.5 : ℚ) ≤ (generate_mock_analysis home away league rH rA rD rHG rAG).away_goals ∧
    (league_adjustments league = none → leagueProfile league = ⟨0.33, 2.5, 1.10⟩) := by
  refine ⟨rfl, rfl, rfl, ?_, ?_, le_max_left _ _, le_max_left _ _,
    fun h => by simp [leagueProfile, h]⟩
  · rw [clamp_eq_min_max _ _ _ (by norm_num)]
    rfl
  · rw [clamp_eq_min_max _ _ _ (by norm_num)]
    rfl

/-- Witness for C6 at a concrete unrecognized league. -/
theorem goal_market_derivation_witness :
    leagueProfile "Foo League" = ⟨0.33, 2.5, 1.10⟩ ∧
    (0.5 : ℚ) ≤ (generate_mock_analysis "A" "B" "Foo League" 0 0 0 0 0).home_goals :=
  ⟨(goal_market_derivation "A" "B" "Foo League" 0 0 0 0 0).2.2.2.2.2.2.2 (by decide),
   (goal_market_derivation "A" "B" "Foo League" 0 0 0 0 0).2.2.2.2.2.1⟩

/-! ## C7 -/

/-- Claim C7: the recommendation policy — branches evaluated in order with
the first match winning: (1) `drawProb > 45` and a draw-biased league gives
Draw with Medium/Low confidence; (2) else home edge over 8 gives the home
side with High/Medium; (3) else away edge over 8 gives the away side with
High/Medium; (4) else Draw with Low. -/
theorem recommendation_policy (home away league : String) (rH rA rD rHG rAG : ℚ)
    (a : Analysis) (ha : a = generate_mock_analysis home away league rH rA rD rHG rAG) :
    ((a.draw_prob > 45 ∧ (league = "Europa League" ∨ league = "Conference League")) →
      a.recommendation = "🤝 DRAW" ∧
        a.confidence = if a.draw_prob > 50 then "MEDIUM" else "LOW") ∧
    (¬(a.draw_prob > 45 ∧ (league = "Europa League" ∨ league = "Conference League")) →
      a.home_prob > a.away_prob + 8 →
      a.recommendation = "🏠 " ++ home ++ " WIN" ∧
        a.confidence = if a.home_prob > 50 then "HIGH" else "MEDIUM") ∧
    (¬(a.draw_prob > 45 ∧ (league = "Europa League" ∨ league = "Conference League")) →
      ¬(a.home_prob > a.away_prob + 8) →
      a.away_prob > a.home_prob + 8 →
      a.recommendation = "🛣️ " ++ away ++ " WIN" ∧
        a.confidence = if a.away_prob > 50 then "HIGH" else "MEDIUM") ∧
    (¬(a.draw_prob > 45 ∧ (league = "Europa League" ∨ league = "Conference League")) →
      ¬(a.home_prob > a.away_prob + 8) →
      ¬(a.away_prob > a.home_prob + 8) →
      a.recommendation = "🤝 DRAW" ∧ a.confidence = "LOW") := by
  subst ha
  dsimp only [generate_mock_analysis]
  refine ⟨fun h => ⟨?_, ?_⟩, fun h1 h2 => ⟨?_, ?_⟩, fun h1 h2 h3 => ⟨?_, ?_⟩,
    fun h1 h2 h3 => ⟨?_, ?_⟩⟩
  · rw [if_pos h]
  · rw [if_pos h]
  · rw [if_neg h1, if_pos h2]
  · rw [if_neg h1, if_pos h2]
  · rw [if_neg h1, if_neg h2, if_pos h3]
  · rw [if_neg h1, if_neg h2, if_pos h3]
  · rw [if_neg h1, if_neg h2, if_neg h3]
  · rw [if_neg h1, if_neg h2, if_neg h3]

/-- Witness for C7 at a concrete input taking the home-win branch. -/
theorem recommendation_policy_witness :
    (generate_mock_analysis "Arsenal" "Chelsea" "Unknown League" 0 0 0 0 0).recommendation
      = "🏠 Arsenal WIN" ∧
    (generate_mock_analysis "Arsenal" "Chelsea" "Unknown League" 0 0 0 0 0).confidence
      = "MEDIUM" := by
  have h := (recommendation_policy "Arsenal" "Chelsea" "Unknown League" 0 0 0 0 0
      (generate_mock_analysis "Arsenal" "Chelsea" "Unknown League" 0 0 0 0 0) rfl).2.1
      (by rw [gen_arsenal_eval]; norm_num) (by rw [gen_arsenal_eval]; norm_num)
  exact ⟨h.1, by rw [h.2, gen_arsenal_eval]; norm_num⟩

/-! ## Grading characterization (shared by C1 and C8) -/

/-- When the actual-result text tokenizes as `tok :: rest`, the grading
section always produces an outcome: `outcomeCorrect` by the substring test
on the first token, and the two score-dependent fields present exactly when
the second token parses as a score. -/
theorem gradeResult_eq (analysis : Analysis) (actual tok : String) (rest : List String)
    (h : pySplit (pyStrip actual) = tok :: rest) :
    gradeResult analysis actual =
      some ⟨outcomeMatches analysis.recommendation tok,
        (scoreParsed rest).map
          (fun s => decide (((s.1 + s.2 : ℤ) : ℚ) > 2.5) == decide (analysis.over_25 > 50)),
        (scoreParsed rest).map
          (fun s => decide (s.1 > 0 ∧ s.2 > 0) == decide (analysis.bts > 50))⟩ := by
  have hne : actual ≠ "" := by
    intro e
    subst e
    rw [show pySplit (pyStrip "") = ([] : List String) from rfl] at h
    cases h
  simp only [gradeResult, outcomeMatches, scoreParsed, eq_false hne, h]
  rcases rest with _ | ⟨sc, rest2⟩
  · simp
  · simp only [List.head?_cons]
    rcases hb : strContains sc "-" with _ | _
    · simp [hb]
    · simp only [hb]
      rcases hsp : pySplitStr sc "-" with _ | ⟨a, _ | ⟨b, _ | ⟨c, t⟩⟩⟩ <;>
        simp only [hsp] <;> try simp
      rcases hx : pyInt a with _ | x <;> rcases hy : pyInt b with _ | y <;>
        simp [hx, hy]

/-! ## C8 -/

/-- Claim C8: grading parse leniency — whenever the actual-result text has
a first token, grading always yields an outcome (exceptions during score
parsing are swallowed, modelled by the `Option`-free total branches):
`outcomeCorrect` is always computed from the first token, the over/under
and both-teams-score fields are omitted exactly when no parseable
`<int>-<int>` score is supplied, and when a score parses they compare
(score total > 2.5) with (over25Pct > 50) and (both components > 0) with
(bothTeamsScorePct > 50). -/
theorem grading_parse_leniency (analysis : Analysis) (actual tok : String) (rest : List String)
    (h : pySplit (pyStrip actual) = tok :: rest) :
    gradeResult analysis actual =
      some ⟨outcomeMatches analysis.recommendation tok,
        (scoreParsed rest).map
          (fun s => decide (((s.1 + s.2 : ℤ) : ℚ) > 2.5) == decide (analysis.over_25 > 50)),
        (scoreParsed rest).map
          (fun s => decide (s.1 > 0 ∧ s.2 > 0) == decide (analysis.bts > 50))⟩ :=
  gradeResult_eq analysis actual tok rest h

/-- Witness for C8: an actual text with an outcome token and no score. -/
theorem grading_parse_leniency_witness :
    gradeResult (generate_mock_analysis "Arsenal Chelsea" "123456" "Europa League" 0 0 0 0 0) "D"
      = some ⟨true, none, none⟩ := by
  rw [grading_parse_leniency
      (generate_mock_analysis "Arsenal Chelsea" "123456" "Europa League" 0 0 0 0 0)
      "D" "D" [] (by decide), gen_arsenal_chelsea_eval]
  decide

/-! ## C1 -/

/-- Claim C1 (code bug): the grader tests the substrings `HOME`/`AWAY`
against the recommendation label, but the generated home-win label is
`"🏠 {home_team} WIN"`, which does not contain `HOME`; so for a generated
prediction recommending a home win and actual text `"H 2-1"`,
`outcomeCorrect` is `false`, contradicting the documented behaviour
(`overUnderCorrect`/`bothTeamsScoreCorrect` come out as the spec says). -/
theorem grader_home_outcome_divergence :
    (generate_mock_analysis "Arsenal" "Chelsea" "Unknown League" 0 0 0 0 0).recommendation
      = "🏠 Arsenal WIN" ∧
    strContains (upperStr "🏠 Arsenal WIN") "HOME" = false ∧
    gradeResult (generate_mock_analysis "Arsenal" "Chelsea" "Unknown League" 0 0 0 0 0) "H 2-1"
      = some ⟨false, some false, some true⟩ := by
  refine ⟨by rw [gen_arsenal_eval], by decide, ?_⟩
  rw [gradeResult_eq _ "H 2-1" "H" ["2-1"] (by decide), gen_arsenal_eval]
  have h1 : outcomeMatches "🏠 Arsenal WIN" "H" = false := by decide
  have h2 : scoreParsed ["2-1"] = some (2, 1) := by decide
  simp only [h1, h2, Option.map_some', Option.some.injEq, GradingOutcome.mk.injEq]
  refine ⟨trivial, ?_, ?_⟩
  · have p1 : (((2 + 1 : ℤ) : ℚ)) > 2.5 := by norm_num
    have p2 : ¬((50 : ℚ) > 50) := by norm_num
    rw [decide_eq_true p1, decide_eq_false p2]
    rfl
  · have p3 : (2 : ℤ) > 0 ∧ (1 : ℤ) > 0 := by norm_num
    have p4 : (75 : ℚ) > 50 := by norm_num
    rw [decide_eq_true p3, decide_eq_true p4]
    rfl

/-! ## C2 -/

/-- Counterexample to C2 as stated: the canonical-link parser joins every
hyphen token but the last into the home name and takes the last token (the
numeric id) as the away name, so the example yields
`("Arsenal Chelsea", "123456")`, not `("Arsenal", "Chelsea")`. -/
theorem end_to_end_example_counterexample :
    extract_basic_info exDoc = ("Arsenal Chelsea", "123456") ∧
    extract_basic_info exDoc ≠ ("Arsenal", "Chelsea") ∧
    detect_league exUrl exDoc.textContent = "Europa League" := by decide

/-- Claim C2 (amended): the end-to-end example yields
home = "Arsenal Chelsea", away = "123456", league = "Europa League", and
the recommendation is Draw whenever the randomized drawProb exceeds 45. -/
theorem end_to_end_example_amended (rH rA rD rHG rAG : ℚ)
    (h : (generate_mock_analysis "Arsenal Chelsea" "123456" "Europa League"
        rH rA rD rHG rAG).draw_prob > 45) :
    extract_basic_info exDoc = ("Arsenal Chelsea", "123456") ∧
    detect_league exUrl exDoc.textContent = "Europa League" ∧
    (generate_mock_analysis "Arsenal Chelsea" "123456" "Europa League"
        rH rA rD rHG rAG).recommendation = "🤝 DRAW" := by
  refine ⟨by decide, by decide, ?_⟩
  dsimp only [generate_mock_analysis] at h ⊢
  exact if_pos ⟨h, Or.inl rfl⟩

/-- Witness for C2 at all-zero noise, where drawProb is exactly 60. -/
theorem end_to_end_example_witness :
    extract_basic_info exDoc = ("Arsenal Chelsea", "123456") ∧
    detect_league exUrl exDoc.textContent = "Europa League" ∧
    (generate_mock_analysis "Arsenal Chelsea" "123456" "Europa League" 0 0 0 0 0).recommendation
      = "🤝 DRAW" :=
  end_to_end_example_amended 0 0 0 0 0 (by rw [gen_arsenal_chelsea_eval]; norm_num)

/-! ## C3 -/

/-- Counterexample to C3 as stated: a document whose headings match the
team class filter with usable texts, yet extraction ignores them and falls
through to the default. -/
theorem team_elements_counterexample :
    (docHeadings.elements.filter isTeamElem).map Elem.text = ["Arsenal", "Chelsea"] ∧
    extract_basic_info docHeadings = ("Team A", "Team B") := by decide

/-- Claim C3 (amended): matched team elements are never read; a nonempty
match only suppresses the title fallback, and extraction proceeds with the
canonical-link stage followed by the default. -/
theorem team_elements_amended (doc : Doc) (h : doc.elements.filter isTeamElem ≠ []) :
    extract_basic_info doc = canonicalFallback doc := by
  simp only [extract_basic_info, canonicalFallback, eq_false h]
  simp

/-- Witness for C3 at a concrete document with matching headings. -/
theorem team_elements_amended_witness :
    extract_basic_info docHeadings = canonicalFallback docHeadings :=
  team_elements_amended docHeadings (by decide)

/-! ## C4 -/

/-- Counterexample to C4 as stated: a URL containing both `europa-league`
and `conference` for which `detect_league` still answers "Europa League",
through the page-text fallback (the URL has no `conference-league`
substring, so no URL branch matches). -/
theorem europa_conference_counterexample :
    strContains (lowerStr "europa-league-conference") "europa-league" = true ∧
    strContains (lowerStr "europa-league-conference") "conference" = true ∧
    detect_league "europa-league-conference" "europa league" = "Europa League" := by decide

set_option maxHeartbeats 1600000 in
/-- Claim C4 (amended): detection lowercases URL and text; for a URL
containing both `europa-league` and `conference`, the URL stage never
answers Europa League, and if the URL also contains `conference-league`
and none of the four earlier slugs the answer is Conference League; Europa
League can then only come from the page-text fallback (text containing
`europa league` without `conference`). -/
theorem europa_conference_amended (url text : String)
    (hE : strContains (lowerStr url) "europa-league" = true)
    (hC : strContains (lowerStr url) "conference" = true) :
    (strContains (lowerStr url) "conference-league" = true →
      strContains (lowerStr url) "premier-league" = false →
      strContains (lowerStr url) "epl" = false →
      strContains (lowerStr url) "champions-league" = false →
      strContains (lowerStr url) "ucl" = false →
      detect_league url text = "Conference League") ∧
    ((strContains (lowerStr text) "europa league" = false ∨
        strContains (lowerStr text) "conference" = true) →
      detect_league url text ≠ "Europa League") := by
  constructor
  · intro hCL hP hEp hCh hU
    simp only [detect_league]
    rw [hP, hEp, hCh, hU, hC, hCL]
    simp only [Bool.or_self, Bool.not_true, Bool.and_false, Bool.false_eq_true,
      if_false, if_true]
  · intro ht hEq
    have hEU : (strContains (lowerStr url) "europa-league"
        && !strContains (lowerStr url) "conference") = false := by
      rw [hC]
      simp
    have hTE : (strContains (lowerStr text) "europa league"
        && !strContains (lowerStr text) "conference") = false := by
      rcases ht with ht | ht
      · rw [ht]
        simp
      · rw [ht]
        simp
    simp only [detect_league] at hEq
    rw [hEU, hTE] at hEq
    split_ifs at hEq <;> first | exact absurd hEq (by decide) | simp_all

/-- Witness for C4 at a mixed-case URL carrying both slugs. -/
theorem europa_conference_witness :
    detect_league "europa-league-Conference-League" "" = "Conference League" ∧
    detect_league "europa-league-Conference-League" "" ≠ "Europa League" := by
  have h := europa_conference_amended "europa-league-Conference-League" ""
    (by decide) (by decide)
  exact ⟨h.1 (by decide) (by decide) (by decide) (by decide) (by decide),
    h.2 (Or.inl (by decide))⟩

/-! ## C9 -/

/-- Counterexample to C9 as stated: a document satisfying the claim's three
conditions — no matching heading, no `vs` in the title, no canonical link
with a `matches/` segment — for which extraction still does not return the
default, because the code tests the substring `matches`, not `matches/`. -/
theorem extractor_default_counterexample :
    docStats.elements.filter isTeamElem = [] ∧
    strContains "Match Centre" "vs" = false ∧
    strContains "https://example.com/stats-matches-today" "matches/" = false ∧
    extract_basic_info docStats ≠ ("Team A", "Team B") := by decide

/-- Claim C9 (amended): extraction is total and returns the default
`("Team A", "Team B")` when no heading matches the team class filter, the
title has no `vs`, and any canonical href lacks the substring `matches`
(the code's actual test, rather than a `matches/` segment). -/
theorem extractor_default_amended (doc : Doc)
    (hE : doc.elements.filter isTeamElem = [])
    (hT : ∀ t, doc.title = some t → strContains t "vs" = false)
    (hC : ∀ u, doc.canonical = some u → strContains u "matches" = false) :
    extract_basic_info doc = ("Team A", "Team B") := by
  simp only [extract_basic_info, hE]
  cases ht : doc.title with
  | none =>
    cases hc : doc.canonical with
    | none => simp
    | some u => simp [hC u hc]
  | some t =>
    cases hc : doc.canonical with
    | none => simp [hT t ht]
    | some u => simp [hT t ht, hC u hc]

/-- Witness for C9 at a concrete document with a `vs`-free title and a
canonical link without `matches`. -/
theorem extractor_default_witness :
    extract_basic_info docNoVs = ("Team A", "Team B") :=
  extractor_default_amended docNoVs (by decide)
    (fun t h => by
      simp only [docNoVs, Option.some.injEq] at h
      subst h
      decide)
    (fun u h => by
      simp only [docNoVs, Option.some.injEq] at h
      subst h
      decide)
